import Mathlib

/-
Verification development for the TheAstronauts governance backend.

The repository's executable code is a small Express backend: a Prisma data
model (Proposal, Vote) and a proposals router with a GET handler that answers
an empty list and a POST handler that runs three express-validator chains
(title non-empty, description non-empty, actions a non-empty array) and either
answers 201 with a success message or throws AppError(400, "Invalid proposal
data").  Those parts are embedded below directly from the source.

The governance core described by the specification (Governor state machine,
VotingPowerLedger, TimelockScheduler, castVote) is not present in the source
tree; only documentation, interface declarations and the data model refer to
it.  Definitions for that core are modelled from the specification text and
are marked as such in their doc comments.
-/

set_option autoImplicit false

namespace TheAstronauts

/-- Action object carried in a proposal's actions array; the API and the test
suite send actions as records of three strings: target, value, data. -/
structure Action where
  target : String
  value : String
  data : String
  deriving Repr, DecidableEq

/-- Request body of POST /api/proposals as consumed by the router. -/
structure ProposalInput where
  title : String
  description : String
  actions : List Action
  deriving Repr, DecidableEq

/-- AppError as thrown by the router: an HTTP status code and a message
(src/unnamed/part_003, `throw new AppError(400, 'Invalid proposal data')`). -/
structure AppError where
  statusCode : Nat
  message : String
  deriving Repr, DecidableEq

/-- Proposal row of the Prisma schema (src/backend/prisma/schema.prisma).
DateTime fields are modelled as natural-number timestamps; the Json[] actions
column holds action objects; status is a free-form string defaulting to
"pending". -/
structure StoredProposal where
  id : String
  title : String
  description : String
  actions : List Action
  status : String
  createdAt : Nat
  updatedAt : Nat
  deriving Repr, DecidableEq

/-- Response of the proposals POST route: either a 201 with a message body, or
an AppError propagated to the error middleware. -/
inductive ProposalsResponse where
  | created (status : Nat) (message : String)
  | errorResp (e : AppError)
  deriving Repr, DecidableEq

/-- Response body of the proposals GET route. -/
structure ProposalsListResponse where
  proposals : List StoredProposal
  deriving Repr, DecidableEq

/-- GET /api/proposals handler (src/unnamed/part_003, lines 9-16): the body is
a TODO stub that answers an empty proposals array and never reads the store. -/
def getProposalsHandler (_db : List StoredProposal) : ProposalsListResponse :=
  { proposals := [] }

/-- POST /api/proposals handler (src/unnamed/part_003, lines 19-39).  The
express-validator chains run notEmpty before the trim and escape sanitizers,
so validation is on the raw values: title non-empty, description non-empty,
actions a non-empty array (an empty array stringifies to the empty string and
fails notEmpty).  Any validation failure throws AppError(400, "Invalid
proposal data"); otherwise the handler answers 201 with a message body.  The
handler performs no store write (creation is a TODO stub), so the database
component of the state is returned unchanged on both paths. -/
def postProposalsHandler (db : List StoredProposal) (input : ProposalInput) :
    ProposalsResponse × List StoredProposal :=
  if input.title = "" ∨ input.description = "" ∨ input.actions = [] then
    (ProposalsResponse.errorResp { statusCode := 400, message := "Invalid proposal data" }, db)
  else
    (ProposalsResponse.created 201 "Proposal created", db)

/-- Names of the specific failure kinds of the specification's error taxonomy
(spec sections 4 and 7). -/
def specErrorKinds : List String :=
  ["EmptyProposal", "InvalidAmount", "InvalidAccount", "InsufficientPower",
   "NoVotingPower", "AlreadyVoted", "VotingClosed", "DelayTooShort", "TooEarly",
   "NotCancellable", "AlreadyExecuted", "AlreadyCanceled", "MaxDelayExceeded",
   "ExecutionTimeout"]

/-- C9: the list-proposals route returns an empty proposals list for every
database state, regardless of how many proposals are stored. -/
theorem getProposals_always_empty (db : List StoredProposal) :
    getProposalsHandler db = { proposals := [] } :=
  rfl

/-- C4: evaluation of the POST handler at a fully valid creation request (the
request of the repository's own test suite).  The handler answers 201 with
only a success message: no proposal record is created (the store stays empty)
and no proposal id is returned, contradicting both the claim and the
repository's API documentation, which promise an id and a pending proposal. -/
theorem postProposals_valid_input_creates_nothing :
    postProposalsHandler []
      { title := "Test Proposal", description := "This is a test proposal",
        actions := [{ target := "0x1234567890123456789012345678901234567890",
                      value := "0", data := "0x" }] } =
      (ProposalsResponse.created 201 "Proposal created", []) := by
  decide

/-- C5 counterexample: a propose call with an empty actions list is rejected,
but with the generic 400 message of the router, which is not the specific
EmptyProposal kind the claim names. -/
theorem postProposals_empty_actions_not_emptyProposal :
    postProposalsHandler [] ⟨"t", "d", []⟩ =
      (ProposalsResponse.errorResp ⟨400, "Invalid proposal data"⟩, []) ∧
    "Invalid proposal data" ≠ "EmptyProposal" := by
  exact ⟨by decide, by decide⟩

/-- C5 (amended): with non-empty title and description, a propose call with an
empty actions list is rejected with the generic 400 AppError and no proposal
is created, while a call with a non-empty actions list is not rejected. -/
theorem postProposals_empty_actions_rejected (db : List StoredProposal)
    (input : ProposalInput) (ht : input.title ≠ "") (hd : input.description ≠ "") :
    (input.actions = [] →
      postProposalsHandler db input =
        (ProposalsResponse.errorResp ⟨400, "Invalid proposal data"⟩, db)) ∧
    (input.actions ≠ [] →
      postProposalsHandler db input =
        (ProposalsResponse.created 201 "Proposal created", db)) := by
  constructor
  · intro ha
    unfold postProposalsHandler
    rw [if_pos (Or.inr (Or.inr ha))]
  · intro ha
    unfold postProposalsHandler
    rw [if_neg]
    simp [ht, hd, ha]

/-- Witness for the amended C5 theorem at a concrete request. -/
theorem postProposals_empty_actions_rejected_witness :
    postProposalsHandler [] ⟨"t", "d", []⟩ =
      (ProposalsResponse.errorResp ⟨400, "Invalid proposal data"⟩, []) :=
  (postProposals_empty_actions_rejected [] ⟨"t", "d", []⟩ (by decide) (by decide)).1 rfl

/-- C7 counterexample: the request of the repository's own validation test
(empty title, empty description, empty actions) is rejected with the generic
message "Invalid proposal data", which names none of the specific failure
kinds of the specification's error taxonomy. -/
theorem postProposals_generic_failure :
    (postProposalsHandler [] ⟨"", "", []⟩).1 =
      ProposalsResponse.errorResp ⟨400, "Invalid proposal data"⟩ ∧
    "Invalid proposal data" ∉ specErrorKinds := by
  exact ⟨by decide, by decide⟩

/-- C7 (amended): every rejected proposal-creation call answers with the same
generic AppError, status 400 and message "Invalid proposal data", whichever
validation failed; the route never identifies a specific failure kind. -/
theorem postProposals_rejection_is_generic (db : List StoredProposal)
    (input : ProposalInput)
    (h : input.title = "" ∨ input.description = "" ∨ input.actions = []) :
    postProposalsHandler db input =
      (ProposalsResponse.errorResp ⟨400, "Invalid proposal data"⟩, db) := by
  unfold postProposalsHandler
  rw [if_pos h]

/-- Witness for the amended C7 theorem at a concrete request. -/
theorem postProposals_rejection_is_generic_witness :
    postProposalsHandler [] ⟨"x", "", [⟨"0xa", "0", "0x"⟩]⟩ =
      (ProposalsResponse.errorResp ⟨400, "Invalid proposal data"⟩, []) :=
  postProposals_rejection_is_generic [] ⟨"x", "", [⟨"0xa", "0", "0x"⟩]⟩
    (Or.inr (Or.inl rfl))

/-- C10: a proposal-creation request with an empty title or an empty
description is rejected with the 400 error, and a successful 201 creation
response implies the title and the description were both non-empty: non-empty
title and description are preconditions of creation at the public route. -/
theorem postProposals_requires_title_description (db : List StoredProposal)
    (input : ProposalInput) :
    ((input.title = "" ∨ input.description = "") →
      postProposalsHandler db input =
        (ProposalsResponse.errorResp ⟨400, "Invalid proposal data"⟩, db)) ∧
    ((postProposalsHandler db input).1 = ProposalsResponse.created 201 "Proposal created" →
      input.title ≠ "" ∧ input.description ≠ "") := by
  constructor
  · intro h
    unfold postProposalsHandler
    rcases h with h | h
    · rw [if_pos (Or.inl h)]
    · rw [if_pos (Or.inr (Or.inl h))]
  · intro hok
    unfold postProposalsHandler at hok
    by_cases hc : input.title = "" ∨ input.description = "" ∨ input.actions = []
    · rw [if_pos hc] at hok
      simp at hok
    · push_neg at hc
      exact ⟨hc.1, hc.2.1⟩

/-- Witness for the C10 theorem at a concrete request with an empty title. -/
theorem postProposals_requires_title_description_witness :
    postProposalsHandler [] ⟨"", "desc", [⟨"0xa", "0", "0x"⟩]⟩ =
      (ProposalsResponse.errorResp ⟨400, "Invalid proposal data"⟩, []) :=
  (postProposals_requires_title_description [] ⟨"", "desc", [⟨"0xa", "0", "0x"⟩]⟩).1
    (Or.inl rfl)

/-- Vote row of the Prisma schema (src/backend/prisma/schema.prisma, lines
24-34).  The support column is a Boolean, so a vote carries exactly two
possible support values; the schema declares the pair (proposalId, voter)
unique.  The Float power column is modelled as a natural number, since only
non-negative weights and addition occur in the claims in scope; the DateTime
createdAt column is modelled as a natural-number timestamp. -/
structure Vote where
  id : String
  proposalId : String
  voter : String
  support : Bool
  power : Nat
  createdAt : Nat
  deriving Repr, DecidableEq

/-- Whether the vote table already holds a record for the pair
(proposalId, voter). -/
def hasVote (votes : List Vote) (pid voter : String) : Bool :=
  votes.any (fun v => v.proposalId = pid && v.voter = voter)

/-- Decidable uniqueness invariant of the schema's unique constraint: no two
records of the vote table share the (proposalId, voter) pair. -/
def uniquePairsB : List Vote → Bool
  | [] => true
  | v :: rest => !hasVote rest v.proposalId v.voter && uniquePairsB rest

/-- Failure kinds of castVote named by the specification (section 4.2). -/
inductive VoteError where
  | votingClosed
  | alreadyVoted
  | noVotingPower
  deriving Repr, DecidableEq

/-- Running vote tallies of a proposal.  The schema's Boolean support column
admits two buckets: votes for (support true) and votes against (support
false). -/
structure Tallies where
  votesFor : Nat
  votesAgainst : Nat
  deriving Repr, DecidableEq

/-- Modelled from the spec: the Governor's castVote (spec section 4.2) is not
in the source tree; this model follows the spec's order of checks — voting
must be open (VotingClosed otherwise), no prior record may exist for the
(proposalId, voter) pair as the schema's unique constraint demands
(AlreadyVoted otherwise), and the weight must be non-zero (NoVotingPower
otherwise) — then appends the VoteRecord and adds its weight to the tally
bucket matching the schema's Boolean support value. -/
def castVote (isActive : Bool) (votes : List Vote) (t : Tallies) (v : Vote) :
    Except VoteError (List Vote × Tallies) :=
  if !isActive then .error .votingClosed
  else if hasVote votes v.proposalId v.voter then .error .alreadyVoted
  else if v.power = 0 then .error .noVotingPower
  else .ok (votes ++ [v],
    if v.support then { t with votesFor := t.votesFor + v.power }
    else { t with votesAgainst := t.votesAgainst + v.power })

/-- Appending a vote keeps the table membership test additive. -/
theorem hasVote_append (votes : List Vote) (v : Vote) (pid voter : String) :
    hasVote (votes ++ [v]) pid voter =
      (hasVote votes pid voter || (v.proposalId = pid && v.voter = voter)) := by
  simp [hasVote]

/-- Appending a fresh pair preserves the uniqueness invariant. -/
theorem uniquePairsB_append (votes : List Vote) (v : Vote)
    (hu : uniquePairsB votes = true)
    (hv : hasVote votes v.proposalId v.voter = false) :
    uniquePairsB (votes ++ [v]) = true := by
  induction votes with
  | nil => simp [uniquePairsB, hasVote]
  | cons w rest ih =>
    simp only [uniquePairsB, Bool.and_eq_true, Bool.not_eq_true'] at hu
    simp only [hasVote, List.any_cons, Bool.or_eq_false_iff] at hv
    simp only [List.cons_append, uniquePairsB, Bool.and_eq_true, Bool.not_eq_true']
    refine ⟨?_, ih hu.2 (by simpa [hasVote] using hv.2)⟩
    rw [List.append_eq, hasVote_append, hu.1, Bool.false_or]
    cases hpv : (v.proposalId = w.proposalId && v.voter = w.voter) with
    | false => rfl
    | true =>
      exfalso
      simp only [Bool.and_eq_true, decide_eq_true_eq] at hpv
      rw [hpv.1, hpv.2] at hv
      simp at hv

/-- C1: a successful castVote on a table satisfying the unique-pair invariant
preserves the invariant, and a second castVote for the same (proposalId,
voter) pair — with any tallies and any weight — is rejected with AlreadyVoted
rather than overwriting the first record.  castVote is the only operation
that writes the vote table, so the invariant is preserved by every
operation. -/
theorem castVote_unique_pair (isActive : Bool) (votes : List Vote) (t : Tallies)
    (v : Vote) (hu : uniquePairsB votes = true) (votes' : List Vote) (t' : Tallies)
    (hok : castVote isActive votes t v = .ok (votes', t')) :
    uniquePairsB votes' = true ∧
    ∀ (t2 : Tallies) (v2 : Vote), v2.proposalId = v.proposalId →
      v2.voter = v.voter → castVote true votes' t2 v2 = .error .alreadyVoted := by
  unfold castVote at hok
  by_cases hact : isActive = true
  · rw [hact] at hok
    simp only [Bool.not_true, Bool.false_eq_true, if_false] at hok
    by_cases hprev : hasVote votes v.proposalId v.voter = true
    · rw [if_pos hprev] at hok
      exact absurd hok (by simp)
    · rw [if_neg hprev] at hok
      by_cases hz : v.power = 0
      · rw [if_pos hz] at hok
        exact absurd hok (by simp)
      · rw [if_neg hz] at hok
        have hv : votes' = votes ++ [v] := by
          injection hok with h
          exact (show votes ++ [v] = votes' from congrArg Prod.fst h).symm
        constructor
        · rw [hv]
          exact uniquePairsB_append votes v hu (Bool.not_eq_true _ ▸ hprev)
        · intro t2 v2 hp2 hv2
          unfold castVote
          have hmem : hasVote votes' v2.proposalId v2.voter = true := by
            rw [hv, hp2, hv2, hasVote_append]
            simp
          rw [hmem]
          simp
  · rw [Bool.not_eq_true] at hact
    rw [hact] at hok
    simp at hok

/-- Witness for the C1 theorem: a first vote on an empty table succeeds and a
second vote by the same voter on the same proposal is rejected. -/
theorem castVote_unique_pair_witness :
    uniquePairsB [⟨"v1", "p1", "alice", true, 40, 0⟩] = true ∧
    ∀ (t2 : Tallies) (v2 : Vote), v2.proposalId = "p1" → v2.voter = "alice" →
      castVote true [⟨"v1", "p1", "alice", true, 40, 0⟩] t2 v2 =
        .error .alreadyVoted :=
  castVote_unique_pair true [] ⟨0, 0⟩ ⟨"v1", "p1", "alice", true, 40, 0⟩ rfl
    [⟨"v1", "p1", "alice", true, 40, 0⟩] ⟨40, 0⟩ rfl

/-- C6 counterexample: the schema's support column is a Boolean, so there do
not exist three votes with pairwise distinct support values — support takes
two values, not the three (For, Against, Abstain) the claim states. -/
theorem vote_support_not_three_valued :
    ¬ ∃ v1 v2 v3 : Vote, v1.support ≠ v2.support ∧ v1.support ≠ v3.support ∧
      v2.support ≠ v3.support := by
  rintro ⟨v1, v2, v3, h12, h13, h23⟩
  cases h1 : v1.support <;> cases h2 : v2.support <;> cases h3 : v3.support <;>
    simp_all

/-- C6 (amended): a vote's support takes one of exactly two values — the
schema's Boolean, true for For and false for Against, with no Abstain — and a
successful castVote stores the VoteRecord and adds its weight to the matching
one of the two tally buckets. -/
theorem castVote_two_buckets (isActive : Bool) (votes : List Vote) (t : Tallies)
    (v : Vote) (votes' : List Vote) (t' : Tallies)
    (hok : castVote isActive votes t v = .ok (votes', t')) :
    votes' = votes ++ [v] ∧
    (v.support = true → t' = { t with votesFor := t.votesFor + v.power }) ∧
    (v.support = false → t' = { t with votesAgainst := t.votesAgainst + v.power }) := by
  unfold castVote at hok
  by_cases hact : isActive = true
  · rw [hact] at hok
    simp only [Bool.not_true, Bool.false_eq_true, if_false] at hok
    by_cases hprev : hasVote votes v.proposalId v.voter = true
    · rw [if_pos hprev] at hok
      exact absurd hok (by simp)
    · rw [if_neg hprev] at hok
      by_cases hz : v.power = 0
      · rw [if_pos hz] at hok
        exact absurd hok (by simp)
      · rw [if_neg hz] at hok
        injection hok with h
        rw [Prod.mk.injEq] at h
        refine ⟨h.1.symm, ?_, ?_⟩
        · intro hs
          rw [← h.2, hs]
          simp
        · intro hs
          rw [← h.2, hs]
          simp
  · rw [Bool.not_eq_true] at hact
    rw [hact] at hok
    simp at hok

/-- Witness for the amended C6 theorem: a For vote of weight 40 lands in the
votesFor bucket and is stored. -/
theorem castVote_two_buckets_witness :
    ([] : List Vote) ++ [(⟨"v1", "p1", "alice", true, 40, 0⟩ : Vote)] =
      [⟨"v1", "p1", "alice", true, 40, 0⟩] ∧
    ((⟨"v1", "p1", "alice", true, 40, 0⟩ : Vote).support = true →
      (⟨40, 0⟩ : Tallies) = ⟨0 + 40, 0⟩) := by
  have h := castVote_two_buckets true [] ⟨0, 0⟩ ⟨"v1", "p1", "alice", true, 40, 0⟩
    [⟨"v1", "p1", "alice", true, 40, 0⟩] ⟨40, 0⟩ rfl
  exact ⟨h.1.symm, fun hs => h.2.1 hs⟩

/-- Checkpoint of the VotingPowerLedger (spec section 3): an entry of an
account's run, ordered ascending by sequence number, holding the account's
aggregated voting power as of that sequence. -/
structure Checkpoint where
  seq : Nat
  power : Nat
  deriving Repr, DecidableEq

/-- Lookup with default in an association list keyed by account strings. -/
def lookupD {α : Type} : List (String × α) → String → α → α
  | [], _, d => d
  | (k, v) :: rest, a, d => if k = a then v else lookupD rest a d

/-- Update-or-insert in an association list keyed by account strings. -/
def setKey {α : Type} : List (String × α) → String → α → List (String × α)
  | [], a, v => [(a, v)]
  | (k, w) :: rest, a, v =>
    if k = a then (a, v) :: rest else (k, w) :: setKey rest a v

/-- Modelled from the spec: the VotingPowerLedger (spec section 4.1) is not in
the source tree.  Its state holds each account's own balance-derived power, an
optional delegatee per account (self-delegation is the default), and the
append-only checkpoint run per account. -/
structure Ledger where
  balance : List (String × Nat)
  delegateeOf : List (String × String)
  checkpoints : List (String × List Checkpoint)
  deriving Repr, DecidableEq

/-- Checkpoint run of an account; an account without a run has the empty
run. -/
def cpsOf (L : Ledger) (a : String) : List Checkpoint :=
  lookupD L.checkpoints a []

/-- Modelled from the spec: the lookup inside getPower (spec section 4.1)
finds the latest entry of the run with sequence number at most s; this
functional rendering scans the run keeping the last qualifying entry. -/
def latestAt : List Checkpoint → Nat → Option Checkpoint
  | [], _ => none
  | c :: rest, s =>
    if c.seq ≤ s then
      match latestAt rest s with
      | some c2 => some c2
      | none => some c
    else latestAt rest s

/-- Modelled from the spec: getPower(account, seq) returns the power of the
latest checkpoint with sequence number at most seq, and 0 when no such
checkpoint exists. -/
def getPower (L : Ledger) (a : String) (s : Nat) : Nat :=
  match latestAt (cpsOf L a) s with
  | some c => c.power
  | none => 0

/-- Reference formulation in the specification's words: the latest checkpoint
with sequence number at most s is the last element of the run restricted to
entries with sequence number at most s. -/
def specLatestCheckpoint (cps : List Checkpoint) (s : Nat) : Option Checkpoint :=
  (cps.filter (fun c => decide (c.seq ≤ s))).getLast?

/-- Reference power value in the specification's words: the power of the
latest applicable checkpoint, zero when none exists. -/
def specPowerAt (cps : List Checkpoint) (s : Nat) : Nat :=
  match specLatestCheckpoint cps s with
  | some c => c.power
  | none => 0

/-- Aggregated power of an account as of its newest checkpoint. -/
def currentPower (L : Ledger) (a : String) : Nat :=
  match (cpsOf L a).getLast? with
  | some c => c.power
  | none => 0

/-- Current delegatee of an account; self-delegation is the default state. -/
def currentDelegatee (L : Ledger) (a : String) : String :=
  lookupD L.delegateeOf a a

/-- Appends a checkpoint to an account's run; runs are append-only, history is
never mutated. -/
def appendCheckpoint (L : Ledger) (a : String) (seq pw : Nat) : Ledger :=
  { L with checkpoints := setKey L.checkpoints a (cpsOf L a ++ [⟨seq, pw⟩]) }

/-- Appends a checkpoint raising an account's aggregated power by amt. -/
def addPower (L : Ledger) (a : String) (seq amt : Nat) : Ledger :=
  appendCheckpoint L a seq (currentPower L a + amt)

/-- Appends a checkpoint lowering an account's aggregated power by amt. -/
def subPower (L : Ledger) (a : String) (seq amt : Nat) : Ledger :=
  appendCheckpoint L a seq (currentPower L a - amt)

/-- Failure kinds of the VotingPowerLedger named by the specification. -/
inductive LedgerError where
  | invalidAmount
  | invalidAccount
  deriving Repr, DecidableEq

/-- Modelled from the spec: successful branch of delegate (spec section 4.1):
moves the delegator's full current balance-power from the old delegatee's
aggregated power to the new delegatee's, appending one checkpoint per affected
delegatee, then records the new delegation. -/
def delegateApply (L : Ledger) (delegator delegatee : String) (seq : Nat) : Ledger :=
  let bal := lookupD L.balance delegator 0
  let L1 := subPower L (currentDelegatee L delegator) seq bal
  let L2 := addPower L1 delegatee seq bal
  { L2 with delegateeOf := setKey L2.delegateeOf delegator delegatee }

/-- Modelled from the spec: delegate (spec section 4.1); fails with
InvalidAccount when the delegatee is the null or empty identifier. -/
def delegate (L : Ledger) (delegator delegatee : String) (seq : Nat) :
    Except LedgerError Ledger :=
  if delegatee = "" then .error .invalidAccount
  else .ok (delegateApply L delegator delegatee seq)

/-- Modelled from the spec: successful branch of recordTransfer (spec section
4.1): moves amt of balance-power between the accounts and appends checkpoints
for the delegatees currently receiving each account's power. -/
def recordTransferApply (L : Ledger) (fromAcc toAcc : String) (amt seq : Nat) :
    Ledger :=
  let L1 := { L with balance := setKey L.balance fromAcc (lookupD L.balance fromAcc 0 - amt) }
  let L2 := { L1 with balance := setKey L1.balance toAcc (lookupD L1.balance toAcc 0 + amt) }
  let L3 := subPower L2 (currentDelegatee L2 fromAcc) seq amt
  addPower L3 (currentDelegatee L3 toAcc) seq amt

/-- Modelled from the spec: recordTransfer (spec section 4.1); fails with
InvalidAmount when the amount is negative or the sender lacks sufficient
balance-power. -/
def recordTransfer (L : Ledger) (fromAcc toAcc : String) (amount : Int) (seq : Nat) :
    Except LedgerError Ledger :=
  if amount < 0 then .error .invalidAmount
  else if lookupD L.balance fromAcc 0 < amount.toNat then .error .invalidAmount
  else .ok (recordTransferApply L fromAcc toAcc amount.toNat seq)

/-- A ledger call of one of the two mutating operations. -/
inductive LedgerOp where
  | delegate (delegator delegatee : String) (seq : Nat)
  | recordTransfer (fromAcc toAcc : String) (amount : Int) (seq : Nat)
  deriving Repr, DecidableEq

/-- Sequence number at which a ledger call takes effect. -/
def ledgerOpSeq : LedgerOp → Nat
  | .delegate _ _ seq => seq
  | .recordTransfer _ _ _ seq => seq

/-- Applies a ledger call; a failed call leaves the ledger unchanged. -/
def applyOp (L : Ledger) : LedgerOp → Ledger
  | .delegate d e seq =>
    match delegate L d e seq with
    | .ok L2 => L2
    | .error _ => L
  | .recordTransfer f t amt seq =>
    match recordTransfer L f t amt seq with
    | .ok L2 => L2
    | .error _ => L

/-- Applies a sequence of ledger calls in order. -/
def applyOps (L : Ledger) (ops : List LedgerOp) : Ledger :=
  ops.foldl applyOp L

/-- The scanning lookup agrees with the specification's formulation: it
returns the last entry of the run with sequence number at most s. -/
theorem latestAt_eq_spec (cps : List Checkpoint) (s : Nat) :
    latestAt cps s = specLatestCheckpoint cps s := by
  induction cps with
  | nil => rfl
  | cons c rest ih =>
    unfold latestAt specLatestCheckpoint
    rw [List.filter_cons]
    by_cases hc : c.seq ≤ s
    · rw [if_pos hc, if_pos (by simpa using hc), ih]
      unfold specLatestCheckpoint
      rw [List.getLast?_cons]
      cases hlast : (rest.filter (fun c => decide (c.seq ≤ s))).getLast? with
      | none => simp [hlast]
      | some c2 => simp [hlast]
    · rw [if_neg hc, if_neg (by simpa using hc), ih]
      rfl

/-- Checkpoints appended after the query sequence do not change the
specification-level lookup. -/
theorem specLatest_append_later (cps : List Checkpoint) (c : Checkpoint)
    (s : Nat) (h : s < c.seq) :
    specLatestCheckpoint (cps ++ [c]) s = specLatestCheckpoint cps s := by
  unfold specLatestCheckpoint
  rw [List.filter_append]
  have hc : List.filter (fun c => decide (c.seq ≤ s)) [c] = [] := by
    simp [List.filter, Nat.not_le.mpr h]
  rw [hc, List.append_nil]

/-- Key lookup after an update-or-insert. -/
theorem lookupD_setKey {α : Type} (l : List (String × α)) (b a : String)
    (v d : α) :
    lookupD (setKey l b v) a d = if b = a then v else lookupD l a d := by
  induction l with
  | nil =>
    unfold setKey lookupD
    by_cases hba : b = a
    · rw [if_pos hba, if_pos hba]
    · rw [if_neg hba, if_neg hba]
      rfl
  | cons kv rest ih =>
    obtain ⟨k, w⟩ := kv
    unfold setKey
    by_cases hkb : k = b
    · rw [if_pos hkb]
      unfold lookupD
      by_cases hba : b = a
      · rw [if_pos hba, if_pos hba]
      · rw [if_neg hba, if_neg hba, if_neg (hkb ▸ hba)]
    · rw [if_neg hkb]
      unfold lookupD
      by_cases hka : k = a
      · rw [if_pos hka, if_pos hka,
          if_neg (fun hba : b = a => hkb (hka.trans hba.symm))]
      · rw [if_neg hka, if_neg hka, ih]

/-- Appending a checkpoint with a sequence number above the query sequence
leaves getPower at the query sequence unchanged, for every account. -/
theorem getPower_appendCheckpoint_later (L : Ledger) (b : String) (seq pw : Nat)
    (a : String) (s : Nat) (h : s < seq) :
    getPower (appendCheckpoint L b seq pw) a s = getPower L a s := by
  have hc : cpsOf (appendCheckpoint L b seq pw) a =
      if b = a then cpsOf L a ++ [⟨seq, pw⟩] else cpsOf L a := by
    unfold cpsOf appendCheckpoint
    rw [show ({ L with checkpoints := setKey L.checkpoints b (cpsOf L b ++ [⟨seq, pw⟩]) } : Ledger).checkpoints = setKey L.checkpoints b (cpsOf L b ++ [⟨seq, pw⟩]) from rfl,
      lookupD_setKey]
    by_cases hba : b = a
    · rw [if_pos hba, if_pos hba, hba]
      rfl
    · rw [if_neg hba, if_neg hba]
  unfold getPower
  rw [hc]
  by_cases hba : b = a
  · rw [if_pos hba, latestAt_eq_spec, latestAt_eq_spec,
      specLatest_append_later _ _ _ h]
  · rw [if_neg hba]

/-- A successful delegate call at a sequence above the query sequence leaves
getPower at the query sequence unchanged. -/
theorem getPower_delegateApply_later (L : Ledger) (d e : String) (seq : Nat)
    (a : String) (s : Nat) (h : s < seq) :
    getPower (delegateApply L d e seq) a s = getPower L a s := by
  unfold delegateApply
  have h1 : getPower { (addPower (subPower L (currentDelegatee L d) seq (lookupD L.balance d 0)) e seq (lookupD L.balance d 0)) with delegateeOf := setKey (addPower (subPower L (currentDelegatee L d) seq (lookupD L.balance d 0)) e seq (lookupD L.balance d 0)).delegateeOf d e } a s =
      getPower (addPower (subPower L (currentDelegatee L d) seq (lookupD L.balance d 0)) e seq (lookupD L.balance d 0)) a s := rfl
  rw [h1]
  unfold addPower subPower
  rw [getPower_appendCheckpoint_later _ _ _ _ _ _ h,
    getPower_appendCheckpoint_later _ _ _ _ _ _ h]

/-- A successful recordTransfer call at a sequence above the query sequence
leaves getPower at the query sequence unchanged. -/
theorem getPower_recordTransferApply_later (L : Ledger) (f t : String)
    (amt seq : Nat) (a : String) (s : Nat) (h : s < seq) :
    getPower (recordTransferApply L f t amt seq) a s = getPower L a s := by
  unfold recordTransferApply
  unfold addPower subPower
  rw [getPower_appendCheckpoint_later _ _ _ _ _ _ h,
    getPower_appendCheckpoint_later _ _ _ _ _ _ h]
  rfl

/-- Any single ledger call at a sequence above the query sequence leaves
getPower at the query sequence unchanged, whether the call succeeds or
fails. -/
theorem getPower_applyOp_later (L : Ledger) (op : LedgerOp) (a : String)
    (s : Nat) (h : s < ledgerOpSeq op) :
    getPower (applyOp L op) a s = getPower L a s := by
  cases op with
  | delegate d e seq =>
    simp only [applyOp, delegate]
    by_cases he : e = ""
    · rw [if_pos he]
    · rw [if_neg he]
      exact getPower_delegateApply_later L d e seq a s h
  | recordTransfer f t amt seq =>
    simp only [applyOp, recordTransfer]
    by_cases h1 : amt < 0
    · rw [if_pos h1]
    · rw [if_neg h1]
      by_cases h2 : lookupD L.balance f 0 < amt.toNat
      · rw [if_pos h2]
      · rw [if_neg h2]
        exact getPower_recordTransferApply_later L f t amt.toNat seq a s h

/-- C3: after any sequence of delegate and recordTransfer calls, getPower
returns the power of the latest checkpoint of the account with sequence number
at most the query sequence — zero when no such checkpoint exists — and any
further call whose sequence number exceeds the query sequence leaves the
result unchanged.  getPower is a pure function of the ledger value, hence
deterministic and side-effect-free. -/
theorem getPower_correct (L0 : Ledger) (ops : List LedgerOp) (a : String)
    (s : Nat) (op : LedgerOp) (hop : s < ledgerOpSeq op) :
    getPower (applyOps L0 ops) a s = specPowerAt (cpsOf (applyOps L0 ops) a) s ∧
    getPower (applyOp (applyOps L0 ops) op) a s = getPower (applyOps L0 ops) a s := by
  constructor
  · unfold getPower specPowerAt
    rw [latestAt_eq_spec]
  · exact getPower_applyOp_later (applyOps L0 ops) op a s hop

/-- Witness for the C3 theorem: an account with balance 100 self-delegates at
sequence 1; the query at sequence 1 matches the specification-level lookup and
is unchanged by a later delegation at sequence 5. -/
theorem getPower_correct_witness :
    getPower (applyOps ⟨[("alice", 100)], [], []⟩ [.delegate "alice" "alice" 1]) "alice" 1 =
      specPowerAt (cpsOf (applyOps ⟨[("alice", 100)], [], []⟩ [.delegate "alice" "alice" 1]) "alice") 1 ∧
    getPower (applyOp (applyOps ⟨[("alice", 100)], [], []⟩ [.delegate "alice" "alice" 1]) (.delegate "alice" "bob" 5)) "alice" 1 =
      getPower (applyOps ⟨[("alice", 100)], [], []⟩ [.delegate "alice" "alice" 1]) "alice" 1 :=
  getPower_correct ⟨[("alice", 100)], [], []⟩ [.delegate "alice" "alice" 1]
    "alice" 1 (.delegate "alice" "bob" 5) (by decide)

/-- Governance parameters fixing the quorum fraction. -/
structure GovConfig where
  quorumNumerator : Nat
  quorumDenominator : Nat
  deriving Repr, DecidableEq

/-- States of the Governor proposal state machine (spec section 4.2). -/
inductive ProposalState where
  | pending
  | active
  | canceled
  | defeated
  | succeeded
  | queued
  | executed
  | expired
  deriving Repr, DecidableEq

/-- Modelled from the spec: Governor proposal record (spec section 3).  The
stored field holds the authoritative state once the proposal is Queued,
Executed or Expired; before that the state is derived from time, the canceled
flag and the tallies. -/
structure GovProposal where
  id : Nat
  proposer : String
  snapshotSeq : Nat
  votingStart : Nat
  votingEnd : Nat
  forVotes : Nat
  againstVotes : Nat
  abstainVotes : Nat
  canceledFlag : Bool
  stored : Option ProposalState
  deriving Repr, DecidableEq

/-- Modelled from the spec: quorum (spec section 4.2) is the fixed fraction
quorumNumerator / quorumDenominator of the total voting-power supply as of the
given sequence number, not of votes cast; supplyAt gives the total supply per
sequence number. -/
def quorum (cfg : GovConfig) (supplyAt : Nat → Nat) (s : Nat) : Nat :=
  supplyAt s * cfg.quorumNumerator / cfg.quorumDenominator

/-- Modelled from the spec: the derived state function of the Governor (spec
section 4.2).  A stored Queued, Executed or Expired value is authoritative; a
set canceled flag short-circuits to Canceled; otherwise Pending before the
window, Active during it, and after it Succeeded exactly when the For votes
strictly exceed the Against votes and total participation meets the quorum at
the snapshot sequence, else Defeated. -/
def stateOf (cfg : GovConfig) (supplyAt : Nat → Nat) (p : GovProposal)
    (now : Nat) : ProposalState :=
  match p.stored with
  | some st => st
  | none =>
    if p.canceledFlag then .canceled
    else if now < p.votingStart then .pending
    else if now < p.votingEnd then .active
    else if p.againstVotes < p.forVotes ∧
        quorum cfg supplyAt p.snapshotSeq ≤
          p.forVotes + p.againstVotes + p.abstainVotes then .succeeded
    else .defeated

/-- C2: for a proposal whose voting window has ended and that is not canceled
and has no stored Queued, Executed or Expired state, the derived state is
Succeeded exactly when the For votes strictly exceed the Against votes and the
sum of the three tally buckets meets the quorum — the fixed fraction
quorumNumerator / quorumDenominator of the total voting-power supply as of
snapshotSeq — and Defeated exactly otherwise. -/
theorem state_outcome_iff (cfg : GovConfig) (supplyAt : Nat → Nat)
    (p : GovProposal) (now : Nat) (hstored : p.stored = none)
    (hcanc : p.canceledFlag = false) (hwin : p.votingStart ≤ p.votingEnd)
    (hend : p.votingEnd ≤ now) :
    (stateOf cfg supplyAt p now = .succeeded ↔
      p.againstVotes < p.forVotes ∧
      supplyAt p.snapshotSeq * cfg.quorumNumerator / cfg.quorumDenominator ≤
        p.forVotes + p.againstVotes + p.abstainVotes) ∧
    (stateOf cfg supplyAt p now = .defeated ↔
      ¬(p.againstVotes < p.forVotes ∧
        supplyAt p.snapshotSeq * cfg.quorumNumerator / cfg.quorumDenominator ≤
          p.forVotes + p.againstVotes + p.abstainVotes)) := by
  simp only [stateOf, quorum, hstored, hcanc, Bool.false_eq_true, if_false]
  rw [if_neg (Nat.not_lt.mpr (Nat.le_trans hwin hend)),
    if_neg (Nat.not_lt.mpr hend)]
  by_cases hq : p.againstVotes < p.forVotes ∧
      supplyAt p.snapshotSeq * cfg.quorumNumerator / cfg.quorumDenominator ≤
        p.forVotes + p.againstVotes + p.abstainVotes
  · rw [if_pos hq]
    exact ⟨⟨fun _ => hq, fun _ => rfl⟩,
      ⟨fun hcontra => ProposalState.noConfusion hcontra, fun hn => absurd hq hn⟩⟩
  · rw [if_neg hq]
    exact ⟨⟨fun hcontra => ProposalState.noConfusion hcontra, fun hq2 => absurd hq2 hq⟩,
      ⟨fun _ => hq, fun _ => rfl⟩⟩

/-- Witness for the C2 theorem at the specification's Scenario C: total supply
1000 at the snapshot, quorum 4 percent (40), For 30 and Against 5 after the
window — the derived state is Defeated (quorum not met) although For exceeds
Against. -/
theorem state_outcome_iff_witness :
    (stateOf ⟨4, 100⟩ (fun _ => 1000)
        ⟨1, "alice", 0, 0, 10, 30, 5, 0, false, none⟩ 10 = .succeeded ↔
      5 < 30 ∧ 1000 * 4 / 100 ≤ 30 + 5 + 0) ∧
    (stateOf ⟨4, 100⟩ (fun _ => 1000)
        ⟨1, "alice", 0, 0, 10, 30, 5, 0, false, none⟩ 10 = .defeated ↔
      ¬(5 < 30 ∧ 1000 * 4 / 100 ≤ 30 + 5 + 0)) :=
  state_outcome_iff ⟨4, 100⟩ (fun _ => 1000)
    ⟨1, "alice", 0, 0, 10, 30, 5, 0, false, none⟩ 10 rfl rfl (by decide) (by decide)

/-- Failure kinds of the TimelockScheduler named by the specification
(sections 4.3 and 7); executionFailed stands for the unnamed action-level
failure kind. -/
inductive TimelockError where
  | delayTooShort
  | maxDelayExceeded
  | tooEarly
  | alreadyExecuted
  | alreadyCanceled
  | executionFailed
  | notCancellable
  deriving Repr, DecidableEq

/-- States of a timelock operation (spec section 3). -/
inductive OperationState where
  | scheduled
  | executed
  | canceled
  deriving Repr, DecidableEq

/-- Modelled from the spec: TimelockOperation record (spec section 3). -/
structure TimelockOperation where
  operationId : Nat
  proposalId : Nat
  eta : Nat
  state : OperationState
  deriving Repr, DecidableEq

/-- Runs a proposal's actions sequentially over a world of effects; none
signals that some action failed and carries no partial world. -/
def runActions {W : Type} (run : Action → W → Option W) :
    List Action → W → Option W
  | [], w => some w
  | a :: rest, w =>
    match run a w with
    | some w2 => runActions run rest w2
    | none => none

/-- Modelled from the spec: execute (spec section 4.3) requires a Scheduled
operation at or past its eta — failing TooEarly, AlreadyExecuted or
AlreadyCanceled otherwise — then invokes the proposal's actions sequentially
in order; when any action fails the whole execution is rejected. -/
def executeOp {W : Type} (run : Action → W → Option W) (acts : List Action)
    (now : Nat) (op : TimelockOperation) (w : W) :
    Except TimelockError (TimelockOperation × W) :=
  match op.state with
  | .executed => .error .alreadyExecuted
  | .canceled => .error .alreadyCanceled
  | .scheduled =>
    if now < op.eta then .error .tooEarly
    else
      match runActions run acts w with
      | some w2 => .ok ({ op with state := .executed }, w2)
      | none => .error .executionFailed

/-- State-transformer view of execute: a failed call reports its error and
hands back the operation and the world it was given. -/
def executeStep {W : Type} (run : Action → W → Option W) (acts : List Action)
    (now : Nat) (op : TimelockOperation) (w : W) :
    Option TimelockError × TimelockOperation × W :=
  match executeOp run acts now op w with
  | .ok (op2, w2) => (none, op2, w2)
  | .error e => (some e, op, w)

/-- C8: when a Scheduled operation is executed at or past its eta and any of
its actions fails, execute is rejected atomically: it reports the failure,
applies no action's effect to the world, and leaves the operation exactly as
it was — still Scheduled and eligible for retry, with no partial Executed
state observable. -/
theorem execute_atomic {W : Type} (run : Action → W → Option W)
    (acts : List Action) (now : Nat) (op : TimelockOperation) (w : W)
    (hs : op.state = .scheduled) (hdue : op.eta ≤ now)
    (hfail : runActions run acts w = none) :
    executeStep run acts now op w = (some .executionFailed, op, w) := by
  simp only [executeStep, executeOp, hs]
  rw [if_neg (Nat.not_lt.mpr hdue), hfail]

/-- Witness for the C8 theorem at the specification's Scenario E: of two
queued actions the second fails, and execute leaves the operation Scheduled
and the world untouched. -/
theorem execute_atomic_witness :
    executeStep
      (fun (a : Action) (w : Nat) => if a.target = "fail" then none else some (w + 1))
      [⟨"ok", "0", "0x"⟩, ⟨"fail", "0", "0x"⟩] 10 ⟨1, 1, 10, .scheduled⟩ 0 =
      (some .executionFailed, ⟨1, 1, 10, .scheduled⟩, 0) :=
  execute_atomic
    (fun (a : Action) (w : Nat) => if a.target = "fail" then none else some (w + 1))
    [⟨"ok", "0", "0x"⟩, ⟨"fail", "0", "0x"⟩] 10 ⟨1, 1, 10, .scheduled⟩ 0
    rfl (by decide) (by decide)

end TheAstronauts
